import Mathlib

/-!
Shallow embedding of `src/lib/solaar/daemon.py` (Solaar daemon lifecycle
controller): argument handling, signal handler, run loop, PID file writer,
double-fork daemonization and the `main` composition root.

Side effects are modelled as an explicit trace (`List Effect`); exceptions
as `Except String`; the `while _running: time.sleep(1)` loop as a
fuel-indexed recursion over a schedule of reads of the `_running` flag.
-/

namespace Solaar

/-- Python `logging` numeric levels used by the source. -/
def ERROR_LEVEL : Int := 40

def WARNING_LEVEL : Int := 30

def INFO_LEVEL : Int := 20

def DEBUG_LEVEL : Int := 10

/-- Signal numbers on Linux, as `int(signal.SIGTERM)` / `int(signal.SIGINT)`. -/
def SIGTERM_NUM : Nat := 15

def SIGINT_NUM : Nat := 2

/-- One observable side effect of the daemon code, in program order. -/
inductive Effect where
  | logInfo (msg : String)
  | logWarning (msg : String)
  | logError (msg : String)
  | dumpTraceback
  | sleepOneSecond
  | forkCall
  | chdirRoot
  | setsidCall
  | umaskZero
  | redirectStdStreams
  | pidWrite (path : String) (pid : Nat)
  | atexitRegisterCleanup (path : String)
  | installSignalHandler (sig : Nat)
  | cliRun (action : List String) (hint : Option String)
  | printHelpActions
  | startupCall
  | shutdownCall
  | tempClose
  | setRootLevel (level : Int)
  | addFileHandler (level : Int)
  | addStreamHandler (level : Int)
  | setupScannerCall
  | watchSuspendResume (restartOnWake : Bool)
  | deferSaves
  deriving DecidableEq, Repr

/-- Parsed command-line arguments (the fields `argparse` produces in
`create_parser`/`_parse_arguments`). -/
structure Args where
  debug : Nat
  hidraw_path : Option String
  restart_on_wake_up : Bool
  pid_file : Option String
  no_fork : Bool
  help_actions : Bool
  action : List String
  deriving DecidableEq, Repr

/-- Source line 104: `log_level = logging.ERROR - 10 * args.debug`. -/
def log_level (debug : Nat) : Int := ERROR_LEVEL - 10 * (debug : Int)

/-- Root logger threshold, line 105: `min(log_level, logging.WARNING)`. -/
def root_level (debug : Nat) : Int := min (log_level debug) WARNING_LEVEL

/-- File-handler threshold, line 107: `max(min(log_level, WARNING), INFO)`. -/
def file_handler_level (debug : Nat) : Int :=
  max (min (log_level debug) WARNING_LEVEL) INFO_LEVEL

/-- Model of `_parse_arguments`: on `--help-actions` prints the action help
and returns `None`; otherwise configures logging and returns the args.
The returned `Option Args` is `none` exactly when the Python function
returns `None`. -/
def _parse_arguments (a : Args) : List Effect × Option Args :=
  if a.help_actions then
    ([Effect.printHelpActions], none)
  else
    ([Effect.setRootLevel (root_level a.debug),
      Effect.addFileHandler (file_handler_level a.debug)]
      ++ (if a.debug > 0 || a.no_fork then
            [Effect.addStreamHandler (log_level a.debug)] else [])
      ++ (if a.action.isEmpty then
            [Effect.logInfo "daemon version"] else []),
     some a)

/-- Model of `_handlesig(signl, stack)`: logs a reason depending on the
signal and unconditionally sets the global `_running` flag to `False`.
The first component of the result is the new value of `_running`;
`info_enabled` models `logger.isEnabledFor(logging.INFO)` (it only
controls the traceback dump on SIGINT). -/
def _handlesig (info_enabled : Bool) (running : Bool) (signl : Nat) :
    Bool × List Effect :=
  let _ := running
  if signl = SIGINT_NUM then
    (false,
     (if info_enabled then [Effect.dumpTraceback] else [])
       ++ [Effect.logInfo "solaar-daemon: exit due to keyboard interrupt"])
  else if signl = SIGTERM_NUM then
    (false, [Effect.logInfo "solaar-daemon: exit due to SIGTERM"])
  else
    (false, [Effect.logInfo "solaar-daemon: exit due to signal"])

/-- Effects a signal handler may emit: log entries and the diagnostic
traceback dump on SIGINT — nothing that mutates daemon state. -/
def isDiagnosticEffect : Effect → Bool
  | Effect.logInfo _ => true
  | Effect.dumpTraceback => true
  | _ => false

/-- Outcome of one run of `while _running: time.sleep(1)`. -/
inductive LoopEnd where
  | flagFalse (sleeps : Nat)
  | raised (sleeps : Nat) (msg : String)
  deriving DecidableEq, Repr

/-- Model of the wait loop `while _running: time.sleep(1)`.  `flags i` is
the value of `_running` read at the `i`-th loop-condition check;
`sr i = some msg` means the `i`-th `time.sleep(1)` call raises an
exception with text `msg`.  `fuel` bounds the number of checks; `none`
means the loop did not finish within the fuel. -/
def waitLoop (flags : Nat → Bool) (sr : Nat → Option String) :
    Nat → Nat → Option LoopEnd
  | 0, _ => none
  | fuel + 1, i =>
    if flags i then
      match sr i with
      | some msg => some (LoopEnd.raised i msg)
      | none => waitLoop flags sr fuel (i + 1)
    else
      some (LoopEnd.flagFalse i)

/-- Trace of the `try/except` loop body given how the loop ended:
one `sleepOneSecond` per completed sleep, plus the `except Exception`
log line when a sleep raised. -/
def loopEffects : LoopEnd → List Effect
  | LoopEnd.flagFalse n => List.replicate n Effect.sleepOneSecond
  | LoopEnd.raised n msg =>
      List.replicate n Effect.sleepOneSecond
        ++ [Effect.logError ("daemon loop error: " ++ msg)]

/-- Model of `_daemon_run_loop(startup_hook, shutdown_hook)`.

Mirrors the source exactly: installs the SIGTERM and SIGINT handlers,
calls `startup_hook()` OUTSIDE the `try`, then runs the wait loop inside
`try ... except Exception ... finally: shutdown_hook()`.

`startup`/`shutdown` describe whether each hook raises; the result pairs
the effect trace with how the call ends (`.ok` = returns normally,
`.error e` = the exception `e` propagates to the caller).  `none` means
the wait loop did not end within `fuel` checks. -/
def _daemon_run_loop (startup shutdown : Except String Unit)
    (flags : Nat → Bool) (sr : Nat → Option String) (fuel : Nat) :
    Option (List Effect × Except String Unit) :=
  let install := [Effect.installSignalHandler SIGTERM_NUM,
                  Effect.installSignalHandler SIGINT_NUM]
  match startup with
  | Except.error e =>
      -- startup_hook() raised before the try/finally: shutdown_hook is
      -- never reached and the exception propagates.
      some (install ++ [Effect.startupCall], Except.error e)
  | Except.ok _ =>
      match waitLoop flags sr fuel 0 with
      | none => none
      | some e =>
          some (install ++ [Effect.startupCall] ++ loopEffects e
                  ++ [Effect.shutdownCall],
                shutdown)

/-- Model of `_write_pid_file(pid_file)`: no-op when no path is
configured; otherwise writes the PID, registers the atexit cleanup and
logs on success, or logs an error on any write failure.  `write_ok`
models whether `open(pid_file, 'w')`/`f.write` succeed.  The function
always returns normally (the Python wraps everything in
`except Exception`). -/
def _write_pid_file (pid_file : Option String) (pid : Nat) (write_ok : Bool) :
    List Effect :=
  match pid_file with
  | none => []
  | some path =>
      if write_ok then
        [Effect.pidWrite path pid,
         Effect.atexitRegisterCleanup path,
         Effect.logInfo ("PID written to " ++ path)]
      else
        [Effect.logError ("Failed to write PID file " ++ path)]

/-- Model of `_daemonize()`, followed along the lineage of the process
that survives to run the daemon.  `fork1_ok`/`fork2_ok` say whether each
`os.fork()` succeeds (it raises `OSError` on failure).  Result: effect
trace, and `some code` when this lineage terminates via `sys.exit(code)`
(`none` = the grandchild continues past the call). -/
def _daemonize (fork1_ok fork2_ok : Bool) : List Effect × Option Int :=
  if !fork1_ok then
    ([Effect.logError "fork #1 failed"], some 1)
  else
    if !fork2_ok then
      ([Effect.forkCall, Effect.chdirRoot, Effect.setsidCall,
        Effect.umaskZero, Effect.logError "fork #2 failed"], some 1)
    else
      ([Effect.forkCall, Effect.chdirRoot, Effect.setsidCall,
        Effect.umaskZero, Effect.forkCall, Effect.redirectStdStreams], none)

/-- Detachment step of `main`: `if not args.no_fork: _daemonize()`. -/
def detach_step (no_fork fork1_ok fork2_ok : Bool) :
    List Effect × Option Int :=
  if no_fork then ([], none) else _daemonize fork1_ok fork2_ok

/-- Environment a run of `main` executes in: platform facts, parsed
arguments, and the behaviour of every external collaborator the daemon
sequence calls. -/
structure Env where
  platform : String
  pyudev_available : Bool
  args : Args
  cli_result : Int
  pid : Nat
  pid_write_ok : Bool
  fork1_ok : Bool
  fork2_ok : Bool
  udev_rules_present : Bool
  warning_enabled : Bool
  scanner_raises : Option String
  startup_raises : Option String
  shutdown_raises : Option String
  flags : Nat → Bool
  sleep_raises : Nat → Option String

/-- Ways `main` ends: `ret v` = `main` returns value `v` to its caller
(`none` = Python `None`), `exited code` = `sys.exit(code)` fired. -/
inductive MainResult where
  | ret (v : Option Int)
  | exited (code : Int)
  deriving DecidableEq, Repr

/-- Process exit status of `if __name__ == "__main__": main()`: a normal
return of `main` (its value is discarded) exits 0, and `sys.exit(code)`
exits with `code`. -/
def script_exit : MainResult → Int
  | MainResult.ret _ => 0
  | MainResult.exited code => code

/-- Python `sys.exit("...message...")` with a string argument prints the
message and exits with status 1. -/
def SYS_EXIT_STRING_CODE : Int := 1

/-- Dependency check at the top of `main`: on any platform other than
Darwin/Windows, `import pyudev` must succeed. -/
def deps_missing (env : Env) : Bool :=
  env.platform != "Darwin" && env.platform != "Windows"
    && !env.pyudev_available

/-- Hook behaviour of `listener.start_all` (the startup hook). -/
def startupBehavior (env : Env) : Except String Unit :=
  match env.startup_raises with
  | some m => Except.error m
  | none => Except.ok ()

/-- Hook behaviour of `listener.stop_all` (the shutdown hook). -/
def shutdownBehavior (env : Env) : Except String Unit :=
  match env.shutdown_raises with
  | some m => Except.error m
  | none => Except.ok ()

/-- The udev-rules advisory warning block of `main` (non-fatal, log only). -/
def udevWarnEffects (env : Env) : List Effect :=
  if env.platform == "Linux" && env.warning_enabled
      && !env.udev_rules_present then
    [Effect.logWarning "Solaar udev file not found in expected location",
     Effect.logWarning "See https://pwr-solaar.github.io/Solaar/installation for more information"]
  else []

/-- The `try:` block of `main`'s daemon sequence (lines 278–292):
`listener.setup_scanner`, the suspend/resume watch, deferred saves and
`_daemon_run_loop`; any exception escaping it is logged and turns into
`sys.exit(1)`; on a normal return `temp.close()` runs and `main` returns
`None`. -/
def daemon_try_block (env : Env) (args : Args) (fuel : Nat) :
    Option (List Effect × MainResult) :=
  match env.scanner_raises with
  | some msg =>
      some ([Effect.setupScannerCall,
             Effect.logError ("solaar-daemon: error: " ++ msg)],
            MainResult.exited 1)
  | none =>
      match _daemon_run_loop (startupBehavior env) (shutdownBehavior env)
          env.flags env.sleep_raises fuel with
      | none => none
      | some r =>
          match r.2 with
          | Except.ok _ =>
              some ([Effect.setupScannerCall,
                     Effect.watchSuspendResume args.restart_on_wake_up,
                     Effect.deferSaves] ++ r.1 ++ [Effect.tempClose],
                    MainResult.ret none)
          | Except.error e =>
              some ([Effect.setupScannerCall,
                     Effect.watchSuspendResume args.restart_on_wake_up,
                     Effect.deferSaves] ++ r.1
                  ++ [Effect.logError ("solaar-daemon: error: " ++ e)],
                    MainResult.exited 1)

/-- Model of `main()`.  Mirrors the source control flow: dependency check,
`_parse_arguments`, one-shot dispatch via `cli.run`, `_daemonize` unless
`--no-fork`, `_write_pid_file`, udev advisory, then the guarded daemon
sequence (`daemon_try_block`).  `none` = the wait loop did not end
within `fuel`. -/
def main (env : Env) (fuel : Nat) : Option (List Effect × MainResult) :=
  if deps_missing env then
    some ([], MainResult.exited SYS_EXIT_STRING_CODE)
  else
    match (_parse_arguments env.args).2 with
    | none =>
        some ((_parse_arguments env.args).1 ++ [Effect.tempClose],
              MainResult.ret none)
    | some args =>
        if !args.action.isEmpty then
          some ((_parse_arguments env.args).1
              ++ [Effect.cliRun args.action args.hidraw_path,
                  Effect.tempClose],
                MainResult.ret (some env.cli_result))
        else
          match (detach_step args.no_fork env.fork1_ok env.fork2_ok).2 with
          | some code =>
              some ((_parse_arguments env.args).1
                  ++ (detach_step args.no_fork env.fork1_ok env.fork2_ok).1,
                    MainResult.exited code)
          | none =>
              match daemon_try_block env args fuel with
              | none => none
              | some r =>
                  some ((_parse_arguments env.args).1
                      ++ (detach_step args.no_fork env.fork1_ok
                            env.fork2_ok).1
                      ++ _write_pid_file args.pid_file env.pid
                            env.pid_write_ok
                      ++ udevWarnEffects env ++ r.1, r.2)

/-- An invocation that gets past the dependency check, is not help and
has no one-shot action (i.e. selects daemon mode). -/
def daemon_path (env : Env) : Bool :=
  !deps_missing env && !env.args.help_actions && env.args.action.isEmpty

/-- Daemon mode with detachment requested and at least one `os.fork()`
failing. -/
def fork_failure (env : Env) : Bool :=
  daemon_path env && !env.args.no_fork
    && (!env.fork1_ok || !env.fork2_ok)

/-- Daemon mode that survives detachment and reaches the PID-file step. -/
def daemon_ready (env : Env) : Bool :=
  daemon_path env
    && (env.args.no_fork || (env.fork1_ok && env.fork2_ok))

/-- An exception raised somewhere in the guarded daemon sequence
(scanner setup, startup hook, or shutdown hook). -/
def seq_exception (env : Env) : Bool :=
  daemon_ready env
    && (env.scanner_raises.isSome || env.startup_raises.isSome
        || env.shutdown_raises.isSome)

/-- A daemon-mode invocation in the foreground (`--no-fork`), no PID
file, every collaborator well behaved, flag already false at the first
check.  Used to instantiate witnesses. -/
def baseEnv : Env := {
  platform := "Linux", pyudev_available := true,
  args := { debug := 0, hidraw_path := none, restart_on_wake_up := false,
            pid_file := none, no_fork := true, help_actions := false,
            action := [] },
  cli_result := 0, pid := 1234, pid_write_ok := true,
  fork1_ok := true, fork2_ok := true, udev_rules_present := true,
  warning_enabled := true, scanner_raises := none, startup_raises := none,
  shutdown_raises := none, flags := fun _ => false,
  sleep_raises := fun _ => none }

/-- Variant of `baseEnv` whose shutdown hook raises. -/
def envShutdownFails : Env := { baseEnv with
  shutdown_raises := some "bad" }

/-- Variant of `baseEnv` whose startup hook raises. -/
def envStartupFails : Env := { baseEnv with
  startup_raises := some "boom" }

/-- Variant of `baseEnv` requesting `--help-actions`. -/
def envHelpActions : Env := { baseEnv with
  args := { baseEnv.args with help_actions := true } }

/-- Variant of `baseEnv` invoking the one-shot action `config` with a
device hint. -/
def envOneShot : Env := { baseEnv with
  args := { baseEnv.args with
    action := ["config"]
    hidraw_path := some "/dev/hidraw2" }
  cli_result := 7 }

/-- Variant of `baseEnv` with a PID file configured on an unwritable
path. -/
def envPidFail : Env := { baseEnv with
  args := { baseEnv.args with pid_file := some "/run/solaar.pid" }
  pid_write_ok := false }

/-- Effects that create or schedule-removal-of the PID file. -/
def isPidFileEffect : Effect → Bool
  | Effect.pidWrite _ _ => true
  | Effect.atexitRegisterCleanup _ => true
  | _ => false

/-! ## Helper lemmas -/

theorem count_shutdown_loopEffects (e : LoopEnd) :
    (loopEffects e).count Effect.shutdownCall = 0 := by
  cases e <;>
    simp [loopEffects, List.count_append, List.count_replicate,
      List.count_singleton]

theorem run_loop_ok_shape (shutdown : Except String Unit)
    (flags : Nat → Bool) (sr : Nat → Option String) (fuel : Nat)
    (fx : List Effect) (r : Except String Unit)
    (h : _daemon_run_loop (Except.ok ()) shutdown flags sr fuel
          = some (fx, r)) :
    r = shutdown ∧ ∃ e, fx = [Effect.installSignalHandler SIGTERM_NUM,
      Effect.installSignalHandler SIGINT_NUM, Effect.startupCall]
      ++ loopEffects e ++ [Effect.shutdownCall] := by
  unfold _daemon_run_loop at h
  cases hw : waitLoop flags sr fuel 0 with
  | none => simp [hw] at h
  | some e =>
      simp [hw] at h
      exact ⟨h.2.symm, e, h.1.symm⟩

theorem parse_some_of_not_help (a : Args) (hhelp : a.help_actions = false) :
    (_parse_arguments a).2 = some a := by
  unfold _parse_arguments
  rw [hhelp]
  simp

theorem main_daemon_shape (env : Env) (fuel : Nat)
    (hdeps : deps_missing env = false)
    (hhelp : env.args.help_actions = false)
    (hact : env.args.action = [])
    (hready : env.args.no_fork = true ∨
      (env.fork1_ok = true ∧ env.fork2_ok = true)) :
    main env fuel = (daemon_try_block env env.args fuel).map
      (fun r => ((_parse_arguments env.args).1
          ++ (detach_step env.args.no_fork env.fork1_ok env.fork2_ok).1
          ++ _write_pid_file env.args.pid_file env.pid env.pid_write_ok
          ++ udevWarnEffects env ++ r.1, r.2)) := by
  have hds : (detach_step env.args.no_fork env.fork1_ok env.fork2_ok).2
      = none := by
    rcases hready with h1 | ⟨h1, h2⟩
    · unfold detach_step; rw [h1]; simp
    · unfold detach_step _daemonize
      rw [h1, h2]
      by_cases hnf : env.args.no_fork <;> simp [hnf]
  unfold main
  rw [hdeps]
  simp only [Bool.false_eq_true, if_false]
  rw [parse_some_of_not_help env.args hhelp]
  simp only
  rw [hact]
  simp only [List.isEmpty_nil, Bool.not_true, Bool.false_eq_true, if_false]
  rw [hds]
  simp only
  cases daemon_try_block env env.args fuel with
  | none => rfl
  | some r => rfl

theorem dtb_shutdown_error (env : Env) (args : Args) (fuel : Nat)
    (fx : List Effect) (r : MainResult) (e : String)
    (hscan : env.scanner_raises = none)
    (hstart : env.startup_raises = none)
    (hshut : env.shutdown_raises = some e)
    (h : daemon_try_block env args fuel = some (fx, r)) :
    r = MainResult.exited 1 ∧
      Effect.logError ("solaar-daemon: error: " ++ e) ∈ fx := by
  unfold daemon_try_block at h
  rw [hscan] at h
  simp only at h
  rw [show startupBehavior env = Except.ok () from by
        unfold startupBehavior; rw [hstart]] at h
  rw [show shutdownBehavior env = Except.error e from by
        unfold shutdownBehavior; rw [hshut]] at h
  cases hw : _daemon_run_loop (Except.ok ()) (Except.error e)
      env.flags env.sleep_raises fuel with
  | none => rw [hw] at h; simp at h
  | some q =>
      obtain ⟨fq, rq⟩ := q
      rw [hw] at h
      obtain ⟨hrq, e2, hfq⟩ :=
        run_loop_ok_shape (Except.error e) env.flags env.sleep_raises
          fuel fq rq hw
      subst hrq
      simp only [Option.some.injEq, Prod.mk.injEq] at h
      refine ⟨h.2.symm, ?_⟩
      rw [← h.1]
      simp

theorem loopEffects_no_pid (e : LoopEnd) :
    (loopEffects e).all (fun ef => !isPidFileEffect ef) = true := by
  cases e with
  | flagFalse n =>
      refine List.all_eq_true.mpr ?_
      intro x hx
      rw [List.eq_of_mem_replicate hx]
      rfl
  | raised n msg =>
      refine List.all_eq_true.mpr ?_
      intro x hx
      rcases List.mem_append.mp hx with h1 | h2
      · rw [List.eq_of_mem_replicate h1]; rfl
      · simp at h2; rw [h2]; rfl

theorem dtb_startup_error (env : Env) (args : Args) (fuel : Nat)
    (fx : List Effect) (r : MainResult) (msg : String)
    (hscan : env.scanner_raises = none)
    (hstart : env.startup_raises = some msg)
    (h : daemon_try_block env args fuel = some (fx, r)) :
    r = MainResult.exited 1 ∧
      Effect.logError ("solaar-daemon: error: " ++ msg) ∈ fx := by
  unfold daemon_try_block at h
  rw [hscan] at h
  simp only at h
  rw [show startupBehavior env = Except.error msg from by
        unfold startupBehavior; rw [hstart]] at h
  unfold _daemon_run_loop at h
  simp only [Option.some.injEq, Prod.mk.injEq] at h
  refine ⟨h.2.symm, ?_⟩
  rw [← h.1]
  simp

theorem dtb_trace_facts (env : Env) (args : Args) (fuel : Nat)
    (fx : List Effect) (r : MainResult)
    (hscan : env.scanner_raises = none)
    (h : daemon_try_block env args fuel = some (fx, r)) :
    Effect.installSignalHandler SIGTERM_NUM ∈ fx ∧
    Effect.startupCall ∈ fx ∧
    fx.all (fun ef => !isPidFileEffect ef) = true := by
  unfold daemon_try_block at h
  rw [hscan] at h
  simp only at h
  cases hs : startupBehavior env with
  | error m =>
      rw [hs] at h
      unfold _daemon_run_loop at h
      simp only [Option.some.injEq, Prod.mk.injEq] at h
      rw [← h.1]
      exact ⟨by simp, by simp, rfl⟩
  | ok u =>
      rw [hs] at h
      cases hw : _daemon_run_loop (Except.ok u) (shutdownBehavior env)
          env.flags env.sleep_raises fuel with
      | none => rw [hw] at h; simp at h
      | some q =>
          obtain ⟨fq, rq⟩ := q
          rw [hw] at h
          obtain ⟨hrq, e, hfq⟩ := run_loop_ok_shape (shutdownBehavior env)
            env.flags env.sleep_raises fuel fq rq (by
              cases u; exact hw)
          have hall : fq.all (fun ef => !isPidFileEffect ef) = true := by
            rw [hfq]
            simp only [List.all_append, Bool.and_eq_true]
            exact ⟨⟨rfl, loopEffects_no_pid e⟩, rfl⟩
          have hmem1 : Effect.installSignalHandler SIGTERM_NUM ∈ fq := by
            rw [hfq]; simp
          have hmem2 : Effect.startupCall ∈ fq := by
            rw [hfq]; simp
          cases hrq2 : rq with
          | ok v =>
              rw [hrq2] at h
              simp only [Option.some.injEq, Prod.mk.injEq] at h
              rw [← h.1]
              refine ⟨by simp [hmem1], by simp [hmem2], ?_⟩
              simp only [List.all_append, Bool.and_eq_true]
              exact ⟨⟨rfl, hall⟩, rfl⟩
          | error m =>
              rw [hrq2] at h
              simp only [Option.some.injEq, Prod.mk.injEq] at h
              rw [← h.1]
              refine ⟨by simp [hmem1], by simp [hmem2], ?_⟩
              simp only [List.all_append, Bool.and_eq_true]
              exact ⟨⟨rfl, hall⟩, rfl⟩

theorem parse_fx_no_pid (a : Args) :
    ((_parse_arguments a).1).all (fun ef => !isPidFileEffect ef) = true := by
  unfold _parse_arguments
  split_ifs <;> rfl

theorem detach_fx_no_pid (nf f1 f2 : Bool) :
    ((detach_step nf f1 f2).1).all (fun ef => !isPidFileEffect ef)
      = true := by
  unfold detach_step _daemonize
  split_ifs <;> rfl

theorem udev_fx_no_pid (env : Env) :
    (udevWarnEffects env).all (fun ef => !isPidFileEffect ef) = true := by
  unfold udevWarnEffects
  split_ifs <;> rfl

theorem detach_fail (nf f1 f2 : Bool) (hnf : nf = false)
    (hf : f1 = false ∨ f2 = false) :
    (detach_step nf f1 f2).2 = some 1 := by
  subst hnf
  unfold detach_step _daemonize
  rcases hf with h | h
  · subst h; rfl
  · subst h
    cases f1 <;> rfl

theorem dtb_result_classification (env : Env) (args : Args) (fuel : Nat)
    (fx : List Effect) (r : MainResult)
    (h : daemon_try_block env args fuel = some (fx, r)) :
    (r = MainResult.exited 1 ↔
      (env.scanner_raises.isSome = true ∨ env.startup_raises.isSome = true
        ∨ env.shutdown_raises.isSome = true)) ∧
    (env.scanner_raises = none ∧ env.startup_raises = none ∧
      env.shutdown_raises = none → r = MainResult.ret none) := by
  cases hsc : env.scanner_raises with
  | some m =>
      unfold daemon_try_block at h
      rw [hsc] at h
      simp only [Option.some.injEq, Prod.mk.injEq] at h
      have hr : r = MainResult.exited 1 := h.2.symm
      subst hr
      constructor
      · simp [hsc]
      · intro hcon
        exact Option.noConfusion hcon.1
  | none =>
      cases hs : env.startup_raises with
      | some m =>
          obtain ⟨hr, _⟩ := dtb_startup_error env args fuel fx r m hsc hs h
          subst hr
          constructor
          · simp [hs]
          · intro hcon
            exact Option.noConfusion hcon.2.1
      | none =>
          cases hsh : env.shutdown_raises with
          | some m =>
              obtain ⟨hr, _⟩ :=
                dtb_shutdown_error env args fuel fx r m hsc hs hsh h
              subst hr
              constructor
              · simp [hsh]
              · intro hcon
                exact Option.noConfusion hcon.2.2
          | none =>
              have hr : r = MainResult.ret none := by
                unfold daemon_try_block at h
                rw [hsc] at h
                simp only at h
                rw [show startupBehavior env = Except.ok () from by
                      unfold startupBehavior; rw [hs]] at h
                rw [show shutdownBehavior env = Except.ok () from by
                      unfold shutdownBehavior; rw [hsh]] at h
                cases hw : _daemon_run_loop (Except.ok ()) (Except.ok ())
                    env.flags env.sleep_raises fuel with
                | none => rw [hw] at h; cases h
                | some q =>
                    obtain ⟨fq, rq⟩ := q
                    rw [hw] at h
                    have hrq := (run_loop_ok_shape (Except.ok ())
                      env.flags env.sleep_raises fuel fq rq hw).1
                    subst hrq
                    simp only [Option.some.injEq, Prod.mk.injEq] at h
                    exact h.2.symm
              subst hr
              constructor
              · simp [hsc, hs, hsh]
              · intro _
                rfl

/-! ## C1 -/

/-- C1 is false of the code: `startup_hook()` is called before the
`try`/`finally` block, so when the startup hook raises, the shutdown hook
is called zero times (not once).  Concrete run: startup raises `"boom"`
and the resulting trace contains no `shutdownCall`. -/
theorem C1_counterexample :
    (_daemon_run_loop (Except.error "boom") (Except.ok ())
        (fun _ => false) (fun _ => none) 1).map
      (fun r => r.1.count Effect.shutdownCall) = some 0 := by
  decide

/-- C1 (amended): `_daemon_run_loop` calls the shutdown hook exactly once
on every path on which the startup hook returns normally — including when
the wait phase ends by an internal exception — but zero times when the
startup hook raises (the exception then propagates to the caller). -/
theorem C1_shutdown_exactly_once_after_startup_ok
    (startup shutdown : Except String Unit) (flags : Nat → Bool)
    (sr : Nat → Option String) (fuel : Nat) (fx : List Effect)
    (r : Except String Unit)
    (h : _daemon_run_loop startup shutdown flags sr fuel = some (fx, r)) :
    (startup = Except.ok () → fx.count Effect.shutdownCall = 1) ∧
    (∀ e, startup = Except.error e →
      fx.count Effect.shutdownCall = 0 ∧ r = Except.error e) := by
  cases startup with
  | error e =>
      unfold _daemon_run_loop at h
      simp at h
      constructor
      · intro hc; exact absurd hc (by simp)
      · intro e' he'
        cases he'
        rw [← h.1, ← h.2]
        constructor
        · decide
        · rfl
  | ok u =>
      obtain ⟨hr, e, hfx⟩ := run_loop_ok_shape shutdown flags sr fuel fx r h
      constructor
      · intro _
        rw [hfx]
        simp [List.count_append, count_shutdown_loopEffects,
          List.count_singleton]
      · intro e' he'
        exact absurd he' (by simp)

/-- Closed witness for `C1_shutdown_exactly_once_after_startup_ok`. -/
theorem C1_witness :
    [Effect.installSignalHandler SIGTERM_NUM,
     Effect.installSignalHandler SIGINT_NUM, Effect.startupCall,
     Effect.shutdownCall].count Effect.shutdownCall = 1 :=
  (C1_shutdown_exactly_once_after_startup_ok (Except.ok ()) (Except.ok ())
    (fun _ => false) (fun _ => none) 1 _ (Except.ok ()) rfl).1 rfl

/-! ## C2 -/

/-- C2 is false of the code: the shutdown hook runs in a bare `finally`
with no surrounding handler, so an exception it raises is re-raised out
of `_daemon_run_loop` instead of being logged there.  Concrete run: the
shutdown hook raises `"bad"` and `_daemon_run_loop` ends with that
exception propagating (second component `.error "bad"`), not with a
normal return. -/
theorem C2_counterexample :
    _daemon_run_loop (Except.ok ()) (Except.error "bad")
        (fun _ => false) (fun _ => none) 1
      = some ([Effect.installSignalHandler SIGTERM_NUM,
               Effect.installSignalHandler SIGINT_NUM, Effect.startupCall,
               Effect.shutdownCall], Except.error "bad") := rfl

/-- C2 (amended): when the shutdown hook raises, the exception propagates
out of `_daemon_run_loop` (it is not caught or logged there); `main`'s
daemon-sequence handler then logs it and exits the process with status 1,
so the caller alone decides the final exit status. -/
theorem C2_shutdown_exception_propagates_then_main_exits_1
    (env : Env) (fuel : Nat) (fx : List Effect) (r : MainResult) (e : String)
    (flags : Nat → Bool) (sr : Nat → Option String) (fuel' : Nat)
    (fx' : List Effect) (r' : Except String Unit)
    (hloop : _daemon_run_loop (Except.ok ()) (Except.error e)
        flags sr fuel' = some (fx', r'))
    (hready : deps_missing env = false)
    (hhelp : env.args.help_actions = false)
    (hact : env.args.action = [])
    (hnofork : env.args.no_fork = true)
    (hscan : env.scanner_raises = none)
    (hstart : env.startup_raises = none)
    (hshut : env.shutdown_raises = some e)
    (h : main env fuel = some (fx, r)) :
    r' = Except.error e ∧ r = MainResult.exited 1 ∧
      Effect.logError ("solaar-daemon: error: " ++ e) ∈ fx := by
  refine ⟨(run_loop_ok_shape _ flags sr fuel' fx' r' hloop).1, ?_⟩
  rw [main_daemon_shape env fuel hready hhelp hact (Or.inl hnofork)] at h
  cases hdtb : daemon_try_block env env.args fuel with
  | none => rw [hdtb] at h; simp at h
  | some q =>
      obtain ⟨fq, rq⟩ := q
      rw [hdtb] at h
      rw [Option.map_some'] at h
      simp only [Option.some.injEq, Prod.mk.injEq] at h
      obtain ⟨hq1, hq2⟩ :=
        dtb_shutdown_error env env.args fuel fq rq e hscan hstart hshut hdtb
      refine ⟨by rw [← h.2, hq1], ?_⟩
      rw [← h.1]
      simp [hq2]

/-- Closed witness for
`C2_shutdown_exception_propagates_then_main_exits_1`. -/
theorem C2_witness :
    (Except.error "bad" : Except String Unit) = Except.error "bad" ∧
    (MainResult.exited 1 : MainResult) = MainResult.exited 1 ∧
    Effect.logError ("solaar-daemon: error: " ++ "bad") ∈
      [Effect.setRootLevel 30, Effect.addFileHandler 30,
       Effect.addStreamHandler 40, Effect.logInfo "daemon version",
       Effect.setupScannerCall, Effect.watchSuspendResume false,
       Effect.deferSaves, Effect.installSignalHandler SIGTERM_NUM,
       Effect.installSignalHandler SIGINT_NUM, Effect.startupCall,
       Effect.shutdownCall,
       Effect.logError ("solaar-daemon: error: " ++ "bad")] :=
  C2_shutdown_exception_propagates_then_main_exits_1 envShutdownFails 1 _
    (MainResult.exited 1) "bad" (fun _ => false) (fun _ => none) 1
    [Effect.installSignalHandler SIGTERM_NUM,
     Effect.installSignalHandler SIGINT_NUM, Effect.startupCall,
     Effect.shutdownCall]
    (Except.error "bad") rfl rfl rfl rfl rfl rfl rfl rfl rfl

/-! ## C7 -/

/-- C7 is false of the code: the computed threshold
`log_level = logging.ERROR - 10 * debug` has no floor.  At five `-d`
repetitions it is `-10`: strictly below DEBUG (10, the most verbose named
level) and even below 0; the root threshold `min(log_level, WARNING)`
goes below with it. -/
theorem C7_counterexample :
    log_level 5 < DEBUG_LEVEL ∧ log_level 5 < 0 ∧
    root_level 5 < DEBUG_LEVEL ∧ root_level 5 < 0 := by
  decide

/-- C7 (amended): each `-d` repetition lowers `log_level` by exactly one
level (10 units) and the root threshold monotonically, but there is no
floor: from four repetitions on, the computed threshold is at or below 0,
i.e. below the most verbose named level. -/
theorem C7_one_level_per_repetition_no_floor :
    (∀ d : Nat, log_level (d + 1) = log_level d - 10) ∧
    (∀ d e : Nat, d ≤ e → root_level e ≤ root_level d) ∧
    (∀ d : Nat, 4 ≤ d → log_level d ≤ 0) := by
  refine ⟨?_, ?_, ?_⟩
  · intro d
    simp only [log_level, ERROR_LEVEL]
    push_cast
    ring
  · intro d e h
    refine min_le_min ?_ le_rfl
    simp only [log_level, ERROR_LEVEL]
    omega
  · intro d h
    simp only [log_level, ERROR_LEVEL]
    omega

/-- Closed witness for `C7_one_level_per_repetition_no_floor`. -/
theorem C7_witness :
    log_level 3 = log_level 2 - 10 ∧ root_level 4 ≤ root_level 2 ∧
      log_level 6 ≤ 0 :=
  ⟨C7_one_level_per_repetition_no_floor.1 2,
   C7_one_level_per_repetition_no_floor.2.1 2 4 (by decide),
   C7_one_level_per_repetition_no_floor.2.2 6 (by decide)⟩

/-! ## C8 -/

/-- C8: `_handlesig` is idempotent.  For every signal number, the handler
leaves `_running` at `false` (a single invocation always transitions the
flag to `false`, and invoking it when the flag is already `false` keeps
it `false` and produces exactly the same behaviour as any other
invocation), and its only effects are log entries (plus the SIGINT
traceback dump, itself a diagnostic log). -/
theorem C8_handlesig_idempotent (info : Bool) (running : Bool) (signl : Nat) :
    (_handlesig info running signl).1 = false ∧
    _handlesig info false signl = _handlesig info running signl ∧
    ((_handlesig info running signl).2.all isDiagnosticEffect) = true := by
  cases info <;> unfold _handlesig <;> split_ifs <;> exact ⟨rfl, rfl, rfl⟩

/-! ## C9 -/

/-- The wait loop, run with enough fuel, reaches the first `false` read
of the flag and stops there. -/
theorem waitLoop_terminates (flags : Nat → Bool) :
    ∀ (k i : Nat), flags (i + k) = false →
      ∃ t, t ≤ i + k ∧
        waitLoop flags (fun _ => none) (k + 1) i
          = some (LoopEnd.flagFalse t) := by
  intro k
  induction k with
  | zero =>
      intro i h
      rw [Nat.add_zero] at h
      exact ⟨i, le_refl i, by unfold waitLoop; rw [h]; simp⟩
  | succ k ih =>
      intro i h
      by_cases hf : flags i
      · obtain ⟨t, ht, hw⟩ := ih (i + 1) (by
          have heq : i + 1 + k = i + (k + 1) := by omega
          rw [heq]; exact h)
        exact ⟨t, by omega, by unfold waitLoop; rw [hf]; simpa using hw⟩
      · exact ⟨i, by omega, by
          unfold waitLoop
          rw [Bool.not_eq_true] at hf
          rw [hf]
          simp⟩

/-- C9: once the running flag is false the wait loop stops.  (1) At any
check that reads `false` the loop exits immediately, with no further
sleep — it never continues while the flag is false.  (2) If the flag is
false from check `n` on, `_daemon_run_loop` completes with at most `n`
sleeps in total and then invokes the shutdown hook (the trace ends with
`shutdownCall`). -/
theorem C9_loop_exits_when_flag_false
    (flags : Nat → Bool) (sr : Nat → Option String) :
    (∀ fuel i, flags i = false →
      waitLoop flags sr (fuel + 1) i = some (LoopEnd.flagFalse i)) ∧
    (∀ (n : Nat) (shutdown : Except String Unit),
      (∀ m, n ≤ m → flags m = false) →
      ∃ k, k ≤ n ∧
        _daemon_run_loop (Except.ok ()) shutdown flags (fun _ => none)
            (n + 1)
          = some ([Effect.installSignalHandler SIGTERM_NUM,
                   Effect.installSignalHandler SIGINT_NUM,
                   Effect.startupCall]
              ++ List.replicate k Effect.sleepOneSecond
              ++ [Effect.shutdownCall], shutdown)) := by
  constructor
  · intro fuel i h
    unfold waitLoop
    rw [h]
    simp
  · intro n shutdown hmono
    obtain ⟨t, ht, hw⟩ := waitLoop_terminates flags n 0 (by
      rw [Nat.zero_add]; exact hmono n (le_refl n))
    rw [Nat.zero_add] at ht
    refine ⟨t, ht, ?_⟩
    unfold _daemon_run_loop
    rw [hw]
    simp [loopEffects]

/-- Closed witness for `C9_loop_exits_when_flag_false`. -/
theorem C9_witness :
    waitLoop (fun _ => false) (fun _ => none) 1 0
        = some (LoopEnd.flagFalse 0) ∧
    ∃ k, k ≤ 0 ∧
      _daemon_run_loop (Except.ok ()) (Except.ok ())
          (fun _ => false) (fun _ => none) 1
        = some ([Effect.installSignalHandler SIGTERM_NUM,
                 Effect.installSignalHandler SIGINT_NUM,
                 Effect.startupCall]
            ++ List.replicate k Effect.sleepOneSecond
            ++ [Effect.shutdownCall], Except.ok ()) :=
  ⟨(C9_loop_exits_when_flag_false (fun _ => false) (fun _ => none)).1 0 0 rfl,
   (C9_loop_exits_when_flag_false (fun _ => false) (fun _ => none)).2 0
     (Except.ok ()) (fun _ _ => rfl)⟩

/-! ## C3 -/

/-- C3: with a one-shot action present (and the dependency check passing),
`main` delegates to `cli.run` with the action and the device hint and
returns its result verbatim; on this path the trace contains no fork, no
PID write, no atexit registration and no signal-handler installation. -/
theorem C3_one_shot_delegates_without_daemon_effects
    (env : Env) (fuel : Nat)
    (hdeps : deps_missing env = false)
    (hhelp : env.args.help_actions = false)
    (hact : env.args.action ≠ []) :
    ∃ fx, main env fuel = some (fx, MainResult.ret (some env.cli_result)) ∧
      Effect.cliRun env.args.action env.args.hidraw_path ∈ fx ∧
      Effect.forkCall ∉ fx ∧
      (∀ p n, Effect.pidWrite p n ∉ fx) ∧
      (∀ p, Effect.atexitRegisterCleanup p ∉ fx) ∧
      (∀ s, Effect.installSignalHandler s ∉ fx) := by
  unfold main
  rw [hdeps]
  simp only [Bool.false_eq_true, if_false]
  rw [parse_some_of_not_help env.args hhelp]
  simp only
  cases hA : env.args.action with
  | nil => exact absurd hA hact
  | cons a as =>
      simp only [hA, List.isEmpty_cons, Bool.not_false, if_true]
      unfold _parse_arguments
      rw [hhelp]
      simp only [Bool.false_eq_true, if_false, hA]
      refine ⟨_, rfl, ?_, ?_, ?_, ?_, ?_⟩ <;> split_ifs <;> simp

/-- Closed witness for `C3_one_shot_delegates_without_daemon_effects`. -/
theorem C3_witness :
    ∃ fx, main envOneShot 1
        = some (fx, MainResult.ret (some envOneShot.cli_result)) ∧
      Effect.cliRun envOneShot.args.action envOneShot.args.hidraw_path ∈ fx ∧
      Effect.forkCall ∉ fx ∧
      (∀ p n, Effect.pidWrite p n ∉ fx) ∧
      (∀ p, Effect.atexitRegisterCleanup p ∉ fx) ∧
      (∀ s, Effect.installSignalHandler s ∉ fx) :=
  C3_one_shot_delegates_without_daemon_effects envOneShot 1 rfl rfl
    (by decide)

/-! ## C4 -/

/-- C4: with `--help-actions` (and the dependency check passing), `main`
prints the action list and returns `None` — process exit status 0 — and
the whole trace is just that print plus closing the temp file: no fork,
no PID file write, and no logging setup (no root-level set, no handler
added). -/
theorem C4_help_actions_short_circuits
    (env : Env) (fuel : Nat)
    (hdeps : deps_missing env = false)
    (hhelp : env.args.help_actions = true) :
    main env fuel = some ([Effect.printHelpActions, Effect.tempClose],
        MainResult.ret none) ∧
    script_exit (MainResult.ret none) = 0 ∧
    Effect.forkCall ∉ [Effect.printHelpActions, Effect.tempClose] ∧
    (∀ p n, Effect.pidWrite p n
      ∉ [Effect.printHelpActions, Effect.tempClose]) ∧
    (∀ l, Effect.setRootLevel l
      ∉ [Effect.printHelpActions, Effect.tempClose]) ∧
    (∀ l, Effect.addFileHandler l
      ∉ [Effect.printHelpActions, Effect.tempClose]) ∧
    (∀ l, Effect.addStreamHandler l
      ∉ [Effect.printHelpActions, Effect.tempClose]) := by
  refine ⟨?_, rfl, by simp, by simp, by simp, by simp, by simp⟩
  unfold main
  rw [hdeps]
  simp only [Bool.false_eq_true, if_false]
  unfold _parse_arguments
  rw [hhelp]
  simp

/-- Closed witness for `C4_help_actions_short_circuits`. -/
theorem C4_witness :
    main envHelpActions 1
        = some ([Effect.printHelpActions, Effect.tempClose],
          MainResult.ret none) ∧
    script_exit (MainResult.ret none) = 0 :=
  ⟨(C4_help_actions_short_circuits envHelpActions 1 rfl rfl).1,
   (C4_help_actions_short_circuits envHelpActions 1 rfl rfl).2.1⟩

/-! ## C6 -/

/-- C6: PID-file failure is non-fatal.  `_write_pid_file` on a failing
write logs the error and returns normally (its result is just that log
entry), and with no path configured it does nothing (no write, no atexit
registration).  Moreover a daemon run whose PID-file write fails still
reaches the run loop: the trace contains the write-failure log line, the
signal-handler installation and the startup call — and no PID write and
no cleanup registration anywhere. -/
theorem C6_pid_file_failure_nonfatal
    (path : String) (pid : Nat) (env : Env) (fuel : Nat)
    (fx : List Effect) (r : MainResult)
    (hdeps : deps_missing env = false)
    (hhelp : env.args.help_actions = false)
    (hact : env.args.action = [])
    (hready : env.args.no_fork = true ∨
      (env.fork1_ok = true ∧ env.fork2_ok = true))
    (hscan : env.scanner_raises = none)
    (hpath : env.args.pid_file = some path)
    (hwr : env.pid_write_ok = false)
    (h : main env fuel = some (fx, r)) :
    (_write_pid_file (some path) pid false
        = [Effect.logError ("Failed to write PID file " ++ path)]) ∧
    (∀ ok, _write_pid_file none pid ok = []) ∧
    Effect.logError ("Failed to write PID file " ++ path) ∈ fx ∧
    Effect.installSignalHandler SIGTERM_NUM ∈ fx ∧
    Effect.startupCall ∈ fx ∧
    fx.all (fun ef => !isPidFileEffect ef) = true := by
  refine ⟨rfl, fun ok => rfl, ?_⟩
  rw [main_daemon_shape env fuel hdeps hhelp hact hready] at h
  cases hdtb : daemon_try_block env env.args fuel with
  | none => rw [hdtb] at h; simp at h
  | some q =>
      obtain ⟨fq, rq⟩ := q
      rw [hdtb] at h
      rw [Option.map_some'] at h
      simp only [Option.some.injEq, Prod.mk.injEq] at h
      obtain ⟨hm1, hm2, hm3⟩ :=
        dtb_trace_facts env env.args fuel fq rq hscan hdtb
      have hpidfx : _write_pid_file env.args.pid_file env.pid
          env.pid_write_ok
          = [Effect.logError ("Failed to write PID file " ++ path)] := by
        rw [hpath, hwr]
        rfl
      rw [← h.1]
      refine ⟨by rw [hpidfx]; simp, by simp [hm1], by simp [hm2], ?_⟩
      simp only [List.all_append, Bool.and_eq_true]
      refine ⟨⟨⟨⟨parse_fx_no_pid env.args,
        detach_fx_no_pid env.args.no_fork env.fork1_ok env.fork2_ok⟩,
        by rw [hpidfx]; rfl⟩, udev_fx_no_pid env⟩, hm3⟩

/-- Closed witness for `C6_pid_file_failure_nonfatal`. -/
theorem C6_witness :
    (_write_pid_file (some "/run/solaar.pid") 1234 false
        = [Effect.logError
            ("Failed to write PID file " ++ "/run/solaar.pid")]) ∧
    (∀ ok, _write_pid_file none 1234 ok = []) ∧
    Effect.logError ("Failed to write PID file " ++ "/run/solaar.pid") ∈
      [Effect.setRootLevel 30, Effect.addFileHandler 30,
       Effect.addStreamHandler 40, Effect.logInfo "daemon version",
       Effect.logError ("Failed to write PID file " ++ "/run/solaar.pid"),
       Effect.setupScannerCall, Effect.watchSuspendResume false,
       Effect.deferSaves, Effect.installSignalHandler SIGTERM_NUM,
       Effect.installSignalHandler SIGINT_NUM, Effect.startupCall,
       Effect.shutdownCall, Effect.tempClose] ∧
    Effect.installSignalHandler SIGTERM_NUM ∈
      [Effect.setRootLevel 30, Effect.addFileHandler 30,
       Effect.addStreamHandler 40, Effect.logInfo "daemon version",
       Effect.logError ("Failed to write PID file " ++ "/run/solaar.pid"),
       Effect.setupScannerCall, Effect.watchSuspendResume false,
       Effect.deferSaves, Effect.installSignalHandler SIGTERM_NUM,
       Effect.installSignalHandler SIGINT_NUM, Effect.startupCall,
       Effect.shutdownCall, Effect.tempClose] ∧
    Effect.startupCall ∈
      [Effect.setRootLevel 30, Effect.addFileHandler 30,
       Effect.addStreamHandler 40, Effect.logInfo "daemon version",
       Effect.logError ("Failed to write PID file " ++ "/run/solaar.pid"),
       Effect.setupScannerCall, Effect.watchSuspendResume false,
       Effect.deferSaves, Effect.installSignalHandler SIGTERM_NUM,
       Effect.installSignalHandler SIGINT_NUM, Effect.startupCall,
       Effect.shutdownCall, Effect.tempClose] ∧
    List.all
      [Effect.setRootLevel 30, Effect.addFileHandler 30,
       Effect.addStreamHandler 40, Effect.logInfo "daemon version",
       Effect.logError ("Failed to write PID file " ++ "/run/solaar.pid"),
       Effect.setupScannerCall, Effect.watchSuspendResume false,
       Effect.deferSaves, Effect.installSignalHandler SIGTERM_NUM,
       Effect.installSignalHandler SIGINT_NUM, Effect.startupCall,
       Effect.shutdownCall, Effect.tempClose]
      (fun ef => !isPidFileEffect ef) = true :=
  C6_pid_file_failure_nonfatal "/run/solaar.pid" 1234 envPidFail 1 _
    (MainResult.ret none) rfl rfl rfl (Or.inl rfl) rfl rfl rfl rfl

/-! ## C10 -/

/-- C10: a raising startup hook makes the exception propagate out of
`_daemon_run_loop` (for every shutdown behaviour, flag schedule and
fuel), and `main`'s daemon-sequence handler then logs the error and
exits the process with status 1 — the failure is always reported with a
log line and the daemon does not keep running. -/
theorem C10_startup_exception_logged_and_exits_1
    (env : Env) (fuel : Nat) (fx : List Effect) (r : MainResult)
    (msg : String)
    (hdeps : deps_missing env = false)
    (hhelp : env.args.help_actions = false)
    (hact : env.args.action = [])
    (hready : env.args.no_fork = true ∨
      (env.fork1_ok = true ∧ env.fork2_ok = true))
    (hscan : env.scanner_raises = none)
    (hstart : env.startup_raises = some msg)
    (h : main env fuel = some (fx, r)) :
    (∀ (sh : Except String Unit) (flags : Nat → Bool)
        (sr : Nat → Option String) (f2 : Nat),
      _daemon_run_loop (Except.error msg) sh flags sr f2
        = some ([Effect.installSignalHandler SIGTERM_NUM,
                 Effect.installSignalHandler SIGINT_NUM,
                 Effect.startupCall], Except.error msg)) ∧
    r = MainResult.exited 1 ∧
    Effect.logError ("solaar-daemon: error: " ++ msg) ∈ fx := by
  refine ⟨fun sh flags sr f2 => rfl, ?_⟩
  rw [main_daemon_shape env fuel hdeps hhelp hact hready] at h
  cases hdtb : daemon_try_block env env.args fuel with
  | none => rw [hdtb] at h; simp at h
  | some q =>
      obtain ⟨fq, rq⟩ := q
      rw [hdtb] at h
      rw [Option.map_some'] at h
      simp only [Option.some.injEq, Prod.mk.injEq] at h
      obtain ⟨hq1, hq2⟩ :=
        dtb_startup_error env env.args fuel fq rq msg hscan hstart hdtb
      refine ⟨by rw [← h.2, hq1], ?_⟩
      rw [← h.1]
      simp [hq2]

/-- Closed witness for `C10_startup_exception_logged_and_exits_1`. -/
theorem C10_witness :
    (∀ (sh : Except String Unit) (flags : Nat → Bool)
        (sr : Nat → Option String) (f2 : Nat),
      _daemon_run_loop (Except.error "boom") sh flags sr f2
        = some ([Effect.installSignalHandler SIGTERM_NUM,
                 Effect.installSignalHandler SIGINT_NUM,
                 Effect.startupCall], Except.error "boom")) ∧
    (MainResult.exited 1 : MainResult) = MainResult.exited 1 ∧
    Effect.logError ("solaar-daemon: error: " ++ "boom") ∈
      [Effect.setRootLevel 30, Effect.addFileHandler 30,
       Effect.addStreamHandler 40, Effect.logInfo "daemon version",
       Effect.setupScannerCall, Effect.watchSuspendResume false,
       Effect.deferSaves, Effect.installSignalHandler SIGTERM_NUM,
       Effect.installSignalHandler SIGINT_NUM, Effect.startupCall,
       Effect.logError ("solaar-daemon: error: " ++ "boom")] :=
  C10_startup_exception_logged_and_exits_1 envStartupFails 1 _
    (MainResult.exited 1) "boom" rfl rfl rfl (Or.inl rfl) rfl rfl rfl

/-! ## C5 -/

/-- C5: classification of process exit statuses on the daemon path.
`sys.exit(1)` fires exactly when the dependency check fails (the
`sys.exit(message)` for missing pyudev exits 1), a fork primitive fails
during detachment, or an exception escapes the guarded daemon sequence
(scanner setup, startup hook, or shutdown hook); and a clean
signal-triggered shutdown makes `main` return `None`, a process exit
status of 0. -/
theorem C5_exit_status_classification
    (env : Env) (fuel : Nat) (fx : List Effect) (r : MainResult)
    (h : main env fuel = some (fx, r)) :
    (r = MainResult.exited 1 ↔
      (deps_missing env = true ∨ fork_failure env = true ∨
        seq_exception env = true)) ∧
    (daemon_ready env = true ∧ env.scanner_raises = none ∧
      env.startup_raises = none ∧ env.shutdown_raises = none →
      r = MainResult.ret none ∧ script_exit r = 0) := by
  by_cases hd : deps_missing env = true
  · unfold main at h
    rw [hd] at h
    simp only [if_true, Option.some.injEq, Prod.mk.injEq] at h
    have hr : r = MainResult.exited 1 := h.2.symm
    subst hr
    constructor
    · simp [hd]
    · intro hcon
      have hdr := hcon.1
      simp [daemon_ready, daemon_path, hd] at hdr
  · have hd' : deps_missing env = false := by
      rw [Bool.not_eq_true] at hd
      exact hd
    by_cases hh : env.args.help_actions = true
    · unfold main at h
      rw [hd'] at h
      simp only [Bool.false_eq_true, if_false] at h
      rw [show (_parse_arguments env.args).2 = none from by
            unfold _parse_arguments; rw [hh]; simp] at h
      simp only [Option.some.injEq, Prod.mk.injEq] at h
      have hr : r = MainResult.ret none := h.2.symm
      subst hr
      constructor
      · simp [hd', fork_failure, seq_exception, daemon_ready,
          daemon_path, hh]
      · intro hcon
        have hdr := hcon.1
        simp [daemon_ready, daemon_path, hh] at hdr
    · have hh' : env.args.help_actions = false := by
        rw [Bool.not_eq_true] at hh
        exact hh
      cases hA : env.args.action with
      | cons a as =>
          unfold main at h
          rw [hd'] at h
          simp only [Bool.false_eq_true, if_false] at h
          rw [parse_some_of_not_help env.args hh'] at h
          simp only at h
          rw [hA] at h
          simp only [List.isEmpty_cons, Bool.not_false, if_true,
            Option.some.injEq, Prod.mk.injEq] at h
          have hr : r = MainResult.ret (some env.cli_result) := h.2.symm
          subst hr
          constructor
          · simp [hd', fork_failure, seq_exception, daemon_ready,
              daemon_path, hA]
          · intro hcon
            have hdr := hcon.1
            simp [daemon_ready, daemon_path, hA] at hdr
      | nil =>
          by_cases hready : env.args.no_fork = true ∨
              (env.fork1_ok = true ∧ env.fork2_ok = true)
          · have hdr : daemon_ready env = true := by
              rcases hready with h1 | hpair
              · simp [daemon_ready, daemon_path, hd', hh', hA, h1]
              · simp [daemon_ready, daemon_path, hd', hh', hA,
                  hpair.1, hpair.2]
            have hff : fork_failure env = false := by
              rcases hready with h1 | hpair
              · simp [fork_failure, daemon_path, h1]
              · simp [fork_failure, daemon_path, hpair.1, hpair.2]
            rw [main_daemon_shape env fuel hd' hh' hA hready] at h
            cases hdtb : daemon_try_block env env.args fuel with
            | none => rw [hdtb] at h; cases h
            | some q =>
                obtain ⟨fq, rq⟩ := q
                rw [hdtb] at h
                rw [Option.map_some'] at h
                simp only [Option.some.injEq, Prod.mk.injEq] at h
                have hr : r = rq := h.2.symm
                subst hr
                obtain ⟨hiff, hok⟩ :=
                  dtb_result_classification env env.args fuel fq r hdtb
                constructor
                · rw [hiff]
                  simp [hd', hff, seq_exception, hdr, Bool.or_eq_true,
                    or_assoc]
                · intro hcon
                  have hrq := hok ⟨hcon.2.1, hcon.2.2.1, hcon.2.2.2⟩
                  subst hrq
                  exact ⟨rfl, rfl⟩
          · have hnf : env.args.no_fork = false := by
              by_contra hc
              rw [Bool.not_eq_false] at hc
              exact hready (Or.inl hc)
            have hforks : env.fork1_ok = false ∨ env.fork2_ok = false := by
              by_cases h1 : env.fork1_ok = true
              · right
                by_contra hc
                rw [Bool.not_eq_false] at hc
                exact hready (Or.inr ⟨h1, hc⟩)
              · left
                rw [Bool.not_eq_true] at h1
                exact h1
            unfold main at h
            rw [hd'] at h
            simp only [Bool.false_eq_true, if_false] at h
            rw [parse_some_of_not_help env.args hh'] at h
            simp only at h
            rw [hA] at h
            simp only [List.isEmpty_nil, Bool.not_true, Bool.false_eq_true,
              if_false] at h
            rw [detach_fail env.args.no_fork env.fork1_ok env.fork2_ok
              hnf hforks] at h
            simp only [Option.some.injEq, Prod.mk.injEq] at h
            have hr : r = MainResult.exited 1 := h.2.symm
            subst hr
            constructor
            · constructor
              · intro _
                refine Or.inr (Or.inl ?_)
                rcases hforks with h1 | h1 <;>
                  simp [fork_failure, daemon_path, hd', hh', hA, hnf, h1]
              · intro _
                rfl
            · intro hcon
              have hdr := hcon.1
              rcases hforks with h1 | h1 <;>
                simp [daemon_ready, daemon_path, hnf, h1] at hdr

/-- Closed witness for `C5_exit_status_classification`. -/
theorem C5_witness :
    ((MainResult.ret none : MainResult) = MainResult.exited 1 ↔
      (deps_missing baseEnv = true ∨ fork_failure baseEnv = true ∨
        seq_exception baseEnv = true)) ∧
    (daemon_ready baseEnv = true ∧ baseEnv.scanner_raises = none ∧
      baseEnv.startup_raises = none ∧ baseEnv.shutdown_raises = none →
      (MainResult.ret none : MainResult) = MainResult.ret none ∧
        script_exit (MainResult.ret none) = 0) :=
  C5_exit_status_classification baseEnv 1 _ (MainResult.ret none) rfl

end Solaar
